import Mathlib

/-!
Verification development for the trip-planner backend.

The Python sources are shallowly embedded: strings are `List Char`,
Python numbers used by the claims are `ℚ`, fallible code returns
`Except PyErr`, and the remote mapping-tool surface plus the standard
JSON decoder are supplied as an explicit environment record so that the
service methods can be reasoned about for every possible remote outcome.
-/

/-! ## Python string primitives -/

/-- Whitespace characters removed by Python's `str.strip()` (the forms
occurring in the modelled data). -/
def isPySpace (c : Char) : Bool :=
  c == ' ' || c == '\n' || c == '\t' || c == '\r'

/-- Models Python `str.strip()`. -/
def pyStrip (s : List Char) : List Char :=
  ((s.dropWhile isPySpace).reverse.dropWhile isPySpace).reverse

/-- Index (relative to the given accumulator) of the first occurrence of
`needle` in the remaining haystack, scanning left to right. -/
def pyFindAux (needle : List Char) : List Char → Nat → Option Nat
  | [], i => if needle.isPrefixOf ([] : List Char) then some i else none
  | c :: tl, i => if needle.isPrefixOf (c :: tl) then some i else pyFindAux needle tl (i + 1)

/-- Models Python `hay.find(needle, start)`; `none` models the return value `-1`. -/
def pyFind (hay needle : List Char) (start : Nat) : Option Nat :=
  (pyFindAux needle (hay.drop start) 0).map (· + start)

/-- Models the Python containment test `needle in hay`. -/
def containsSub (hay needle : List Char) : Bool :=
  (pyFind hay needle 0).isSome

/-- Models Python `hay.rfind(needle)` for nonempty needles; `none` models `-1`. -/
def pyRfind (needle : List Char) : List Char → Option Nat
  | [] => none
  | c :: tl =>
    match pyRfind needle tl with
    | some k => some (k + 1)
    | none => if needle.isPrefixOf (c :: tl) then some 0 else none

/-- Models the Python slice `r[a:b]` for a nonnegative start index `a` and a
possibly negative end index `b` (a negative `b` counts from the end). -/
def pySlice (r : List Char) (a : Nat) (b : Int) : List Char :=
  (r.take (if b < 0 then ((r.length : Int) + b).toNat else b.toNat)).drop a

/-- Models Python `s.split(sep)` for a one-character separator (empty pieces
are kept, as in Python). -/
def splitOnChar (sep : Char) : List Char → List (List Char)
  | [] => [[]]
  | c :: tl =>
    let r := splitOnChar sep tl
    if c == sep then [] :: r
    else
      match r with
      | h :: t => (c :: h) :: t
      | [] => [[c]]

/-- Decimal value of a digit string. -/
def digitsToNat (s : List Char) : Nat :=
  s.foldl (fun acc c => acc * 10 + (c.toNat - 48)) 0

/-- Decimal digits of a natural number. -/
def natChars (n : Nat) : List Char :=
  (Nat.repr n).data

/-- Value of an integer part / fraction part digit pair, used below. -/
def parseDecDigits (ip fp : List Char) : Option ℚ :=
  if ip.all (·.isDigit) && fp.all (·.isDigit) && decide (0 < ip.length + fp.length) then
    some ((digitsToNat ip : ℚ) + (digitsToNat fp : ℚ) / ((10 : ℚ) ^ fp.length))
  else none

/-- Models Python `float(s)` on the plain decimal literals carried by the
provider's `"lon,lat"` payloads (optional sign, digits, optional fraction);
`none` models the `ValueError` raised on any other input. -/
def parseDec (s : List Char) : Option ℚ :=
  let signed : Bool × List Char :=
    match s with
    | '-' :: t => (true, t)
    | '+' :: t => (false, t)
    | t => (false, t)
  let body := signed.2
  match splitOnChar '.' body with
  | [ip] => (parseDecDigits ip []).map (fun q => if signed.1 then -q else q)
  | [ip, fp] => (parseDecDigits ip fp).map (fun q => if signed.1 then -q else q)
  | _ => none

/-! ## Calendar dates (models the `datetime` usage in the fallback plan) -/

structure Date where
  year : Nat
  month : Nat
  day : Nat
deriving DecidableEq, Repr

def isLeap (y : Nat) : Bool :=
  y % 4 == 0 && (y % 100 != 0 || y % 400 == 0)

def daysInMonth (y m : Nat) : Nat :=
  if m == 2 then (if isLeap y then 29 else 28)
  else if m == 4 || m == 6 || m == 9 || m == 11 then 30
  else 31

/-- Calendar successor of a date. -/
def nextDay (d : Date) : Date :=
  if d.day < daysInMonth d.year d.month then ⟨d.year, d.month, d.day + 1⟩
  else if d.month < 12 then ⟨d.year, d.month + 1, 1⟩
  else ⟨d.year + 1, 1, 1⟩

/-- Models `datetime.strptime(s, "%Y-%m-%d")`: a four-digit year, a one- or
two-digit month and day, in range for the calendar; `none` models the
`ValueError` raised on any other input. -/
def parseDate (s : List Char) : Option Date :=
  match splitOnChar '-' s with
  | [ys, ms, ds] =>
    if ys.length == 4 && ys.all (·.isDigit) &&
        decide (1 ≤ ms.length) && decide (ms.length ≤ 2) && ms.all (·.isDigit) &&
        decide (1 ≤ ds.length) && decide (ds.length ≤ 2) && ds.all (·.isDigit) then
      let y := digitsToNat ys
      let m := digitsToNat ms
      let d := digitsToNat ds
      if 1 ≤ y ∧ 1 ≤ m ∧ m ≤ 12 ∧ 1 ≤ d ∧ d ≤ daysInMonth y m then some ⟨y, m, d⟩
      else none
    else none
  | _ => none

/-- Left-pad a number with zeros to the given width. -/
def padZeros (width n : Nat) : List Char :=
  let c := natChars n
  List.replicate (width - c.length) '0' ++ c

/-- Models `date.strftime("%Y-%m-%d")`. -/
def formatDate (d : Date) : List Char :=
  padZeros 4 d.year ++ ('-' :: padZeros 2 d.month) ++ ('-' :: padZeros 2 d.day)

/-- Models `date + timedelta(days = n)` as `n`-fold calendar succession. -/
def dateAdd (d : Date) (n : Nat) : Date :=
  nextDay^[n] d

/-! ## Python values and errors -/

/-- JSON-decoded Python values (`Json.null` doubles as Python `None`). -/
inductive Json where
  | null
  | bool (b : Bool)
  | num (q : ℚ)
  | str (s : List Char)
  | arr (xs : List Json)
  | obj (kvs : List (List Char × Json))

/-- The exception shapes the embedded code distinguishes. -/
inductive PyErr where
  | valueError (msg : List Char)
  | typeError
  | indexError
  | attributeError
  | external (msg : List Char)
deriving DecidableEq

/-- Models Python `d.get(key)` on a decoded value: on a dict it yields the
value (or `None` when the key is absent); on anything else it raises
`AttributeError`. -/
def pyGet (j : Json) (key : List Char) : Except PyErr Json :=
  match j with
  | Json.obj kvs =>
    match kvs.lookup key with
    | some v => Except.ok v
    | none => Except.ok Json.null
  | _ => Except.error PyErr.attributeError

/-! ## Data model records

The module `app/models/schemas.py` is referenced by every component but is
not among the supplied sources, so the record shapes are taken from the
specification's data-model section and from the constructor calls in the
supplied code. -/

/-- Modelled from the spec: `Location` as a pair of decimal coordinates
(`models/schemas.py` is not in the supplied sources). -/
structure Location where
  longitude : ℚ
  latitude : ℚ
deriving DecidableEq, Repr

/-- Modelled from the spec: a caller-supplied trip request. -/
structure TripRequest where
  city : List Char
  start_date : List Char
  end_date : List Char
  travel_days : Nat
  transportation : List Char
  accommodation : List Char
  preferences : List (List Char)
  free_text_input : Option (List Char)

/-- Modelled from the spec: one attraction of a day plan. -/
structure Attraction where
  name : List Char
  address : List Char
  location : Location
  visit_duration : Nat
  description : List Char
  category : List Char
  ticket_price : Option ℚ

/-- Modelled from the spec: one meal of a day plan. -/
structure Meal where
  type : List Char
  name : List Char
  description : List Char
  estimated_cost : Option ℚ

/-- Modelled from the spec: a hotel suggestion. -/
structure Hotel where
  name : List Char
  address : List Char
  location : Location
  price_range : List Char
  rating : List Char
  distance : List Char
  type : List Char
  estimated_cost : Option ℚ

/-- Modelled from the spec: one day of the returned plan. -/
structure DayPlan where
  date : List Char
  day_index : Nat
  description : List Char
  transportation : List Char
  accommodation : List Char
  hotel : Option Hotel
  attractions : List Attraction
  meals : List Meal

/-- Modelled from the spec: the budget block of a plan. -/
structure Budget where
  total_attractions : ℚ
  total_hotels : ℚ
  total_meals : ℚ
  total_transportation : ℚ
  total : ℚ

/-- Modelled from the spec: the terminal plan artifact. -/
structure TripPlan where
  city : List Char
  start_date : List Char
  end_date : List Char
  days : List DayPlan
  weather_info : List Json
  overall_suggestions : List Char
  budget : Option Budget

/-! ## Remote tool environment

`ToolEnv` packages everything outside the embedded code's control: which
remote tools the discovered catalog contains, what a tool invocation
returns (the `text` payload of the one-element result, or an exception
covering transport and shape failures), and the behaviour of the standard
`json.loads` decoder on those payloads. -/

structure ToolEnv where
  tools : List (List Char)
  arun : List Char → Json → Except PyErr (List Char)
  loads : List Char → Except PyErr Json

/-- One observable effect of a run: a remote tool invocation, a
service-level call made by the orchestrator, or the single agent call. -/
inductive Call where
  | tool (name : List Char) (args : Json)
  | svcSearchPoi (keywords city : List Char)
  | svcGetWeather (city : List Char)
  | agent (query : List Char)

def sWeatherTool : List Char := "maps_weather".data
def sTextSearch : List Char := "maps_text_search".data
def sGeoTool : List Char := "maps_geo".data
def sDetailTool : List Char := "maps_search_detail".data
def sWalkTool : List Char := "maps_direction_walking".data
def sDriveTool : List Char := "maps_direction_driving".data
def sTransitTool : List Char := "maps_direction_transit_integrated".data
def sWalking : List Char := "walking".data
def sDriving : List Char := "driving".data
def sTransit : List Char := "transit".data
def sCity : List Char := "city".data
def sKeywords : List Char := "keywords".data
def sCitylimit : List Char := "citylimit".data
def sForecasts : List Char := "forecasts".data
def sPois : List Char := "pois".data
def sAddress : List Char := "address".data
def sResults : List Char := "results".data
def sLocationKey : List Char := "location".data
def sOrigin : List Char := "origin".data
def sDestination : List Char := "destination".data
def sCity1 : List Char := "city1".data
def sCity2 : List Char := "city2".data
def sRoute : List Char := "route".data
def sPaths : List Char := "paths".data
def sId : List Char := "id".data

/-- Fraction digits of `n / d` (at most `fuel` digits), used by `ratStr`. -/
def fracDigits : Nat → Nat → Nat → List Char
  | 0, _, _ => []
  | _, 0, _ => []
  | fuel + 1, n, d =>
    let n10 := n * 10
    Char.ofNat (48 + n10 / d) :: fracDigits fuel (n10 % d) d

/-- Models Python `str()` on a decimal coordinate value. -/
def ratStr (q : ℚ) : List Char :=
  let sign : List Char := if q < 0 then ['-'] else []
  let n := q.num.natAbs
  let d := q.den
  let fr := fracDigits 10 (n % d) d
  sign ++ natChars (n / d) ++ ('.' :: (if fr.isEmpty then ['0'] else fr))

/-- Models `str(loc.longitude) + "," + str(loc.latitude)`. -/
def locStr (l : Location) : List Char :=
  ratStr l.longitude ++ (',' :: ratStr l.latitude)

/-- The optional `city` argument of geocoding: Python only adds the key for
a truthy (nonempty) city string. -/
def cityArg : Option (List Char) → List (List Char × Json)
  | some c => if c.isEmpty then [] else [(sCity, Json.str c)]
  | none => []

/-- Parsing of one geocoding candidate: `r.get('location')` must be a
string, which is split on `,`; its first two pieces must parse as floats.
Any failure raises inside the surrounding `try` (modelled as `none`). -/
def geoOfResult (r : Json) : Option Location :=
  match pyGet r sLocationKey with
  | Except.ok (Json.str s) =>
    match splitOnChar ',' s with
    | p0 :: p1 :: _ =>
      match parseDec p0, parseDec p1 with
      | some lon, some lat => some { longitude := lon, latitude := lat }
      | _, _ => none
    | _ => none
  | _ => none

namespace AmapService

/-- Embeds `AmapService.get_weather` of `app/services/amap_service.py`:
look up the `maps_weather` tool, invoke it, decode the payload and return
its `forecasts` field; every exception is caught and turned into `[]`. -/
def get_weather (env : ToolEnv) (city : List Char) : Json × List Call :=
  if sWeatherTool ∈ env.tools then
    let args := Json.obj [(sCity, Json.str city)]
    match env.arun sWeatherTool args with
    | Except.error _ => (Json.arr [], [Call.tool sWeatherTool args])
    | Except.ok text =>
      match env.loads text with
      | Except.error _ => (Json.arr [], [Call.tool sWeatherTool args])
      | Except.ok wj =>
        match pyGet wj sForecasts with
        | Except.error _ => (Json.arr [], [Call.tool sWeatherTool args])
        | Except.ok forecasts => (forecasts, [Call.tool sWeatherTool args])
  else (Json.arr [], [])

/-- Embeds `AmapService.search_poi`: invoke `maps_text_search` with
`keywords`, `city` and a stringified `citylimit`, returning the `pois`
field; every exception is caught and turned into `[]`. -/
def search_poi (env : ToolEnv) (keywords city : List Char) (citylimit : Bool := true) : Json × List Call :=
  if sTextSearch ∈ env.tools then
    let args := Json.obj [(sKeywords, Json.str keywords), (sCity, Json.str city),
      (sCitylimit, Json.str (if citylimit then "true".data else "false".data))]
    match env.arun sTextSearch args with
    | Except.error _ => (Json.arr [], [Call.tool sTextSearch args])
    | Except.ok text =>
      match env.loads text with
      | Except.error _ => (Json.arr [], [Call.tool sTextSearch args])
      | Except.ok pj =>
        match pyGet pj sPois with
        | Except.error _ => (Json.arr [], [Call.tool sTextSearch args])
        | Except.ok pois => (pois, [Call.tool sTextSearch args])
  else (Json.arr [], [])

/-- Embeds `AmapService.geocode`: invoke `maps_geo`, decode, then convert
every `results[i].location` string into a `Location`; any failure is
caught and yields `None` (modelled as `none`). -/
def geocode (env : ToolEnv) (address : List Char) (city : Option (List Char)) : Option (List Location) × List Call :=
  let args := Json.obj ((sAddress, Json.str address) :: cityArg city)
  if sGeoTool ∈ env.tools then
    match env.arun sGeoTool args with
    | Except.error _ => (none, [Call.tool sGeoTool args])
    | Except.ok text =>
      match env.loads text with
      | Except.error _ => (none, [Call.tool sGeoTool args])
      | Except.ok rj =>
        match pyGet rj sResults with
        | Except.error _ => (none, [Call.tool sGeoTool args])
        | Except.ok (Json.arr rs) => (rs.mapM geoOfResult, [Call.tool sGeoTool args])
        | Except.ok _ => (none, [Call.tool sGeoTool args])
  else (none, [])

/-- Embeds `AmapService.get_poi_detail`: invoke `maps_search_detail` and
return the whole decoded payload; every exception yields `{}`. -/
def get_poi_detail (env : ToolEnv) (poi_id : List Char) : Json × List Call :=
  if sDetailTool ∈ env.tools then
    let args := Json.obj [(sId, Json.str poi_id)]
    match env.arun sDetailTool args with
    | Except.error _ => (Json.obj [], [Call.tool sDetailTool args])
    | Except.ok text =>
      match env.loads text with
      | Except.error _ => (Json.obj [], [Call.tool sDetailTool args])
      | Except.ok j => (j, [Call.tool sDetailTool args])
  else (Json.obj [], [])

/-- Embeds the `tool_map.get(route_type, "maps_direction_walking")`
lookup of `plan_route`. -/
def tool_map_get (route_type : List Char) : List Char :=
  match [(sWalking, sWalkTool), (sDriving, sDriveTool), (sTransit, sTransitTool)].lookup route_type with
  | some t => t
  | none => sWalkTool

/-- The part of `plan_route` after both addresses have been resolved:
build the argument dict (adding `city1`/`city2` exactly for `transit`),
invoke the selected routing tool and return `route.paths`; every
exception in this part is caught and yields `[]`. -/
def routeToolCall (env : ToolEnv) (origin_str dest_str origin_city dest_city route_type : List Char) : Json × List Call :=
  let tool_name := tool_map_get route_type
  let args := Json.obj ([(sOrigin, Json.str origin_str), (sDestination, Json.str dest_str)] ++
    (if route_type = sTransit then [(sCity1, Json.str origin_city), (sCity2, Json.str dest_city)] else []))
  if tool_name ∈ env.tools then
    match env.arun tool_name args with
    | Except.error _ => (Json.arr [], [Call.tool tool_name args])
    | Except.ok text =>
      match env.loads text with
      | Except.error _ => (Json.arr [], [Call.tool tool_name args])
      | Except.ok rj =>
        match pyGet rj sRoute with
        | Except.error _ => (Json.arr [], [Call.tool tool_name args])
        | Except.ok route =>
          match pyGet route sPaths with
          | Except.error _ => (Json.arr [], [Call.tool tool_name args])
          | Except.ok paths => (paths, [Call.tool tool_name args])
  else (Json.arr [], [])

/-- Embeds `AmapService.plan_route` of the asynchronous service: geocode
both endpoints inside the `try` (an absent or empty candidate list makes
the subscript raise, which is caught and yields `[]`), then run the
routing tool. -/
def plan_route (env : ToolEnv) (origin_address origin_city destination_address destination_city route_type : List Char) : Json × List Call :=
  match geocode env origin_address (some origin_city) with
  | (some (l :: _), t1) =>
    match geocode env destination_address (some destination_city) with
    | (some (m :: _), t2) =>
      let r := routeToolCall env (locStr l) (locStr m) origin_city destination_city route_type
      (r.1, t1 ++ t2 ++ r.2)
    | (some [], t2) => (Json.arr [], t1 ++ t2)
    | (none, t2) => (Json.arr [], t1 ++ t2)
  | (some [], t1) => (Json.arr [], t1)
  | (none, t1) => (Json.arr [], t1)

end AmapService

namespace AmapServiceSync

/-- Embeds the inner async body of the synchronous `get_weather` of
`app/services/amap_service_sync.py` (the `asyncio.run` wrapper adds no
behaviour to the pure model). -/
def get_weather (env : ToolEnv) (city : List Char) : Json × List Call :=
  if sWeatherTool ∈ env.tools then
    let args := Json.obj [(sCity, Json.str city)]
    match env.arun sWeatherTool args with
    | Except.error _ => (Json.arr [], [Call.tool sWeatherTool args])
    | Except.ok text =>
      match env.loads text with
      | Except.error _ => (Json.arr [], [Call.tool sWeatherTool args])
      | Except.ok wj =>
        match pyGet wj sForecasts with
        | Except.error _ => (Json.arr [], [Call.tool sWeatherTool args])
        | Except.ok forecasts => (forecasts, [Call.tool sWeatherTool args])
  else (Json.arr [], [])

/-- Embeds the synchronous `search_poi`. -/
def search_poi (env : ToolEnv) (keywords city : List Char) (citylimit : Bool := true) : Json × List Call :=
  if sTextSearch ∈ env.tools then
    let args := Json.obj [(sKeywords, Json.str keywords), (sCity, Json.str city),
      (sCitylimit, Json.str (if citylimit then "true".data else "false".data))]
    match env.arun sTextSearch args with
    | Except.error _ => (Json.arr [], [Call.tool sTextSearch args])
    | Except.ok text =>
      match env.loads text with
      | Except.error _ => (Json.arr [], [Call.tool sTextSearch args])
      | Except.ok pj =>
        match pyGet pj sPois with
        | Except.error _ => (Json.arr [], [Call.tool sTextSearch args])
        | Except.ok pois => (pois, [Call.tool sTextSearch args])
  else (Json.arr [], [])

/-- Embeds the synchronous `geocode`. -/
def geocode (env : ToolEnv) (address : List Char) (city : Option (List Char)) : Option (List Location) × List Call :=
  let args := Json.obj ((sAddress, Json.str address) :: cityArg city)
  if sGeoTool ∈ env.tools then
    match env.arun sGeoTool args with
    | Except.error _ => (none, [Call.tool sGeoTool args])
    | Except.ok text =>
      match env.loads text with
      | Except.error _ => (none, [Call.tool sGeoTool args])
      | Except.ok rj =>
        match pyGet rj sResults with
        | Except.error _ => (none, [Call.tool sGeoTool args])
        | Except.ok (Json.arr rs) => (rs.mapM geoOfResult, [Call.tool sGeoTool args])
        | Except.ok _ => (none, [Call.tool sGeoTool args])
  else (none, [])

/-- Embeds the synchronous `get_poi_detail`. -/
def get_poi_detail (env : ToolEnv) (poi_id : List Char) : Json × List Call :=
  if sDetailTool ∈ env.tools then
    let args := Json.obj [(sId, Json.str poi_id)]
    match env.arun sDetailTool args with
    | Except.error _ => (Json.obj [], [Call.tool sDetailTool args])
    | Except.ok text =>
      match env.loads text with
      | Except.error _ => (Json.obj [], [Call.tool sDetailTool args])
      | Except.ok j => (j, [Call.tool sDetailTool args])
  else (Json.obj [], [])

/-- The inner `_play_route_async` of the synchronous wrapper: identical to
the async post-geocoding logic except that the city names are optional
(`None` becomes a JSON `null` argument value). -/
def routeToolCall (env : ToolEnv) (origin_str dest_str : List Char) (origin_city dest_city : Option (List Char)) (route_type : List Char) : Json × List Call :=
  let tool_name := AmapService.tool_map_get route_type
  let cityVal : Option (List Char) → Json := fun c =>
    match c with
    | some s => Json.str s
    | none => Json.null
  let args := Json.obj ([(sOrigin, Json.str origin_str), (sDestination, Json.str dest_str)] ++
    (if route_type = sTransit then [(sCity1, cityVal origin_city), (sCity2, cityVal dest_city)] else []))
  if tool_name ∈ env.tools then
    match env.arun tool_name args with
    | Except.error _ => (Json.arr [], [Call.tool tool_name args])
    | Except.ok text =>
      match env.loads text with
      | Except.error _ => (Json.arr [], [Call.tool tool_name args])
      | Except.ok rj =>
        match pyGet rj sRoute with
        | Except.error _ => (Json.arr [], [Call.tool tool_name args])
        | Except.ok route =>
          match pyGet route sPaths with
          | Except.error _ => (Json.arr [], [Call.tool tool_name args])
          | Except.ok paths => (paths, [Call.tool tool_name args])
  else (Json.arr [], [])

/-- Embeds the synchronous `plan_route`: both geocoding calls and the two
`[0]` subscripts happen before and outside the inner function's `try`, so
an absent candidate list raises `TypeError` and an empty one raises
`IndexError` to the caller (modelled as `Except.error`). -/
def plan_route (env : ToolEnv) (origin_address destination_address : List Char) (origin_city destination_city : Option (List Char)) (route_type : List Char) : Except PyErr Json × List Call :=
  match geocode env origin_address origin_city with
  | (none, t1) => (Except.error PyErr.typeError, t1)
  | (some [], t1) => (Except.error PyErr.indexError, t1)
  | (some (l :: _), t1) =>
    match geocode env destination_address destination_city with
    | (none, t2) => (Except.error PyErr.typeError, t1 ++ t2)
    | (some [], t2) => (Except.error PyErr.indexError, t1 ++ t2)
    | (some (m :: _), t2) =>
      let r := routeToolCall env (locStr l) (locStr m) origin_city destination_city route_type
      (Except.ok r.1, t1 ++ t2 ++ r.2)

end AmapServiceSync

/-! ## Module-level singletons

`GState` models the module-level globals of `llm_service.py`,
`amap_service.py` and `trip_planner_agent.py`; constructed instances are
identified by allocation number, so identity (not merely equality) of the
returned instance is expressible. -/

structure GState where
  llm : Option Nat
  llm_doubao : Option Nat
  amap : Option Nat
  planner : Option Nat
  next_id : Nat
deriving DecidableEq, Repr

/-- Embeds `get_llm` of `llm_service.py`: construct on first use, then
return the cached instance. -/
def get_llm (s : GState) : Nat × GState :=
  match s.llm with
  | some i => (i, s)
  | none => (s.next_id, { s with llm := some s.next_id, next_id := s.next_id + 1 })

/-- Embeds `get_llm_DouBao` of `llm_service.py` (the environment-variable
side effect does not affect the caching behaviour being modelled). -/
def get_llm_DouBao (s : GState) : Nat × GState :=
  match s.llm_doubao with
  | some i => (i, s)
  | none => (s.next_id, { s with llm_doubao := some s.next_id, next_id := s.next_id + 1 })

/-- Embeds `get_amap_service` of `amap_service.py`. -/
def get_amap_service (s : GState) : Nat × GState :=
  match s.amap with
  | some i => (i, s)
  | none => (s.next_id, { s with amap := some s.next_id, next_id := s.next_id + 1 })

/-- Embeds `get_trip_planner_agent` of `trip_planner_agent.py`: the
constructor of `MultiAgentTripPlanner` acquires both LLM handles, then the
new orchestrator instance is cached (successful initialization assumed,
as the claim presupposes a completed first call). -/
def get_trip_planner_agent (s : GState) : Nat × GState :=
  match s.planner with
  | some i => (i, s)
  | none =>
    let s1 := (get_llm s).2
    let s2 := (get_llm_DouBao s1).2
    (s2.next_id, { s2 with planner := some s2.next_id, next_id := s2.next_id + 1 })

/-! ## Orchestrator (`trip_planner_agent.py`) -/

def jsonFence : List Char := "```json".data
def fence3 : List Char := "```".data
def lbrace : Char := Char.ofNat 123
def rbrace : Char := Char.ofNat 125
def noJsonMsg : List Char := "响应中未找到JSON数据".data

/-- Embeds the JSON-extraction step of
`MultiAgentTripPlanner._parse_response`: prefer a ```json fenced block,
then any ``` fenced block (both stripped), then the substring from the
first opening brace to the last closing brace; otherwise raise
`ValueError`. -/
def extract_json (response : List Char) : Except PyErr (List Char) :=
  match pyFind response jsonFence 0 with
  | some k =>
    let js : Nat := k + 7
    let je : Int :=
      match pyFind response fence3 js with
      | some e => (e : Int)
      | none => -1
    Except.ok (pyStrip (pySlice response js je))
  | none =>
    match pyFind response fence3 0 with
    | some k =>
      let js : Nat := k + 3
      let je : Int :=
        match pyFind response fence3 js with
        | some e => (e : Int)
        | none => -1
      Except.ok (pyStrip (pySlice response js je))
    | none =>
      if containsSub response [lbrace] && containsSub response [rbrace] then
        let js : Nat := (pyFind response [lbrace] 0).getD 0
        let je : Int := ((pyRfind [rbrace] response).getD 0 : Int) + 1
        Except.ok (pySlice response js je)
      else Except.error (PyErr.valueError noJsonMsg)

/-! ## IEEE-754 binary64 model

The fallback generator's coordinates are Python floats, so the coordinate
expressions are evaluated here in exact binary64 arithmetic: a value is a
normalized 53-bit significand times a power of two, literals are rounded
to the nearest double, and each addition or multiplication re-rounds
(round-to-nearest, ties to even). The modelled values sit far inside the
finite positive double range, so signs, infinities, NaNs and subnormals
do not arise. -/

/-- A nonnegative binary64 value `m * 2^e` with `2^52 ≤ m < 2^53` (or
`m = 0` for zero). -/
structure F64 where
  m : Nat
  e : Int
deriving DecidableEq, Repr

/-- Bit length of a natural number (fuel-driven; exact for `n < 2^fuel`). -/
def bitlen : Nat → Nat → Nat
  | 0, _ => 0
  | fuel + 1, n => if n = 0 then 0 else bitlen fuel (n / 2) + 1

/-- Round `num / den` to the nearest integer, ties to even. -/
def roundQuot (num den : Nat) : Nat :=
  let q := num / den
  let r := num % den
  if den < 2 * r then q + 1
  else if 2 * r < den then q
  else if q % 2 = 0 then q else q + 1

/-- Whether `a / b ≥ 2^t`. -/
def cmpGe (a b : Nat) (t : Int) : Bool :=
  if 0 ≤ t then b * 2 ^ t.toNat ≤ a else b ≤ a * 2 ^ (-t).toNat

/-- The binary exponent `e` with `2^(52+e) ≤ a/b < 2^(53+e)`, reached by
climbing from a lower bound (fuel-driven; exact for the modelled range). -/
def findExp : Nat → Nat → Nat → Int → Int
  | 0, _, _, e => e
  | fuel + 1, a, b, e => if cmpGe a b (53 + e) then findExp fuel a b (e + 1) else e

/-- The binary64 value nearest to the positive rational `a / b`. -/
def roundPosRat (a b : Nat) : F64 :=
  if a = 0 then ⟨0, 0⟩
  else
    let e := findExp 200 a b (-100)
    let m := if 0 ≤ e then roundQuot a (b * 2 ^ e.toNat) else roundQuot (a * 2 ^ (-e).toNat) b
    if m = 2 ^ 53 then ⟨2 ^ 52, e + 1⟩ else ⟨m, e⟩

/-- Round the exact dyadic value `N * 2^E` to binary64. -/
def roundDyadic (N : Nat) (E : Int) : F64 :=
  if N = 0 then ⟨0, 0⟩
  else
    let L := bitlen 200 N
    if L ≤ 53 then ⟨N * 2 ^ (53 - L), E - ((53 - L : Nat) : Int)⟩
    else
      let k := L - 53
      let m := roundQuot N (2 ^ k)
      if m = 2 ^ 53 then ⟨2 ^ 52, E + k + 1⟩ else ⟨m, E + (k : Int)⟩

/-- Binary64 addition of nonnegative values. -/
def f64Add (x y : F64) : F64 :=
  let emin := min x.e y.e
  roundDyadic (x.m * 2 ^ (x.e - emin).toNat + y.m * 2 ^ (y.e - emin).toNat) emin

/-- Binary64 multiplication of nonnegative values. -/
def f64Mul (x y : F64) : F64 :=
  roundDyadic (x.m * y.m) (x.e + y.e)

/-- Models Python `float(i)` on a day or attraction index. -/
def intToF64 (i : Nat) : F64 :=
  roundDyadic i 0

/-- Models the Python float literal denoting `n / 10^k` (the nearest double). -/
def pyFloat (n k : Nat) : F64 :=
  roundPosRat n (10 ^ k)

/-- Exact rational value denoted by a binary64 value. -/
def f64ToRat (x : F64) : ℚ :=
  (x.m : ℚ) * (2 : ℚ) ^ x.e

/-- The longitude the source computes for day `i`, attraction `j`: the
float expression `116.4 + i*0.01 + j*0.005` evaluated left-to-right in
binary64. -/
def pyLong (i j : Nat) : F64 :=
  f64Add (f64Add (pyFloat 1164 1) (f64Mul (intToF64 i) (pyFloat 1 2)))
    (f64Mul (intToF64 j) (pyFloat 5 3))

/-- The latitude the source computes for day `i`, attraction `j`: the
float expression `39.9 + i*0.01 + j*0.005` evaluated left-to-right in
binary64. -/
def pyLat (i j : Nat) : F64 :=
  f64Add (f64Add (pyFloat 399 1) (f64Mul (intToF64 i) (pyFloat 1 2)))
    (f64Mul (intToF64 j) (pyFloat 5 3))

/-- One synthetic attraction of the fallback plan (`j`-th attraction of
day `i`): the coordinates are the binary64 results of the source's float
expressions `116.4 + i*0.01 + j*0.005` and `39.9 + i*0.01 + j*0.005`,
stored as the exact rational values of the computed doubles. -/
def fallbackAttraction (req : TripRequest) (i j : Nat) : Attraction :=
  { name := req.city ++ "景点".data ++ natChars (j + 1)
    address := req.city ++ "市".data
    location := { longitude := f64ToRat (pyLong i j), latitude := f64ToRat (pyLat i j) }
    visit_duration := 120
    description := "这是".data ++ req.city ++ "的著名景点".data
    category := "景点".data
    ticket_price := none }

/-- One day of the fallback plan. -/
def fallbackDay (req : TripRequest) (d0 : Date) (i : Nat) : DayPlan :=
  { date := formatDate (dateAdd d0 i)
    day_index := i
    description := "第".data ++ natChars (i + 1) ++ "天行程".data
    transportation := req.transportation
    accommodation := req.accommodation
    hotel := none
    attractions := (List.range 2).map (fun j => fallbackAttraction req i j)
    meals := [
      { type := "breakfast".data, name := "第".data ++ natChars (i + 1) ++ "天早餐".data,
        description := "当地特色早餐".data, estimated_cost := none },
      { type := "lunch".data, name := "第".data ++ natChars (i + 1) ++ "天午餐".data,
        description := "午餐推荐".data, estimated_cost := none },
      { type := "dinner".data, name := "第".data ++ natChars (i + 1) ++ "天晚餐".data,
        description := "晚餐推荐".data, estimated_cost := none }] }

/-- Embeds `MultiAgentTripPlanner._create_fallback_plan`: parse the start
date with `strptime` (which raises on a malformed date — nothing catches
that here), then build one `DayPlan` per day of `range(travel_days)` at
`start_date + timedelta(days = i)`. -/
def create_fallback_plan (req : TripRequest) : Except PyErr TripPlan :=
  match parseDate req.start_date with
  | none => Except.error (PyErr.valueError ("time data does not match format".data))
  | some d0 =>
    Except.ok
      { city := req.city
        start_date := req.start_date
        end_date := req.end_date
        days := (List.range req.travel_days).map (fun i => fallbackDay req d0 i)
        weather_info := []
        overall_suggestions := "这是为您规划的".data ++ req.city ++ natChars req.travel_days ++
          "日游行程,建议提前查看各景点的开放时间。".data
        budget := none }

/-- Embeds `MultiAgentTripPlanner._parse_response`: extract JSON from the
raw text, decode it and validate it into a `TripPlan`; any failure is
caught and answered with `_create_fallback_plan` (whose own exceptions
propagate). The decoder and the pydantic validation are supplied as
parameters. -/
def parse_response (loads : List Char → Except PyErr Json)
    (tripPlanOf : Json → Except PyErr TripPlan)
    (response : List Char) (req : TripRequest) : Except PyErr TripPlan :=
  match extract_json response with
  | Except.error _ => create_fallback_plan req
  | Except.ok js =>
    match loads js with
    | Except.error _ => create_fallback_plan req
    | Except.ok data =>
      match tripPlanOf data with
      | Except.error _ => create_fallback_plan req
      | Except.ok plan => Except.ok plan

/-- Joining with a separator, as Python `sep.join(xs)`. -/
def joinWith (sep : List Char) : List (List Char) → List Char
  | [] => []
  | [x] => x
  | x :: xs => x ++ sep ++ joinWith sep xs

/-- The preferences line of the planning brief. -/
def prefsText (prefs : List (List Char)) : List Char :=
  if prefs.isEmpty then "无".data else joinWith (", ".data) prefs

/-- Embeds `MultiAgentTripPlanner._build_planner_query` (the surrounding
indentation of the Python multi-line literal is immaterial to every claim
and is not reproduced character-for-character). -/
def build_planner_query (req : TripRequest) (attractions weather hotels : List Char) : List Char :=
  let base :=
    "请根据以下信息生成".data ++ req.city ++ "的".data ++ natChars req.travel_days ++
    "天旅行计划:\n\n**基本信息:**\n- 城市: ".data ++ req.city ++
    "\n- 日期: ".data ++ req.start_date ++ " 至 ".data ++ req.end_date ++
    "\n- 天数: ".data ++ natChars req.travel_days ++
    "天\n- 交通方式: ".data ++ req.transportation ++
    "\n- 住宿: ".data ++ req.accommodation ++
    "\n- 偏好: ".data ++ prefsText req.preferences ++
    "\n\n**景点信息:**\n".data ++ attractions ++
    "\n\n**天气信息:**\n".data ++ weather ++
    "\n\n**酒店信息:**\n".data ++ hotels ++
    "\n\n**要求:**\n1. 每天安排2-3个景点\n2. 每天必须包含早中晚三餐\n3. 每天推荐一个具体的酒店(从酒店信息中选择)\n3. 考虑景点之间的距离和交通方式\n4. 返回完整的JSON格式数据\n5. 景点的经纬度坐标要真实准确\n".data
  match req.free_text_input with
  | some extra => base ++ "\n**额外要求:** ".data ++ extra
  | none => base

/-- The hotel-search keyword of `plan_trip`, exactly the characters of the
source's plain (non-f-string) literal: an opening brace,
`request.accommodation`, a closing brace, then the hotel suffix. -/
def hotel_keyword : List Char := "\x7brequest.accommodation\x7d酒店".data

/-- The agent-side environment of the orchestrator: the outcome of
`init_mcp_tools`, the agent invocation (its reply's message contents, or
an exception), Python `str()` on decoded tool results (used only to embed
them into the brief), and the pydantic `TripPlan(**data)` validation. -/
structure AgentEnv where
  initmcp : Except PyErr Unit
  agentInvoke : List Char → Except PyErr (List (List Char))
  pyStr : Json → List Char
  tripPlanOf : Json → Except PyErr TripPlan

/-- The attraction-search keyword of `plan_trip`: the first preference if
any, else the generic 景点. -/
def attraction_keyword (req : TripRequest) : List Char :=
  match req.preferences with
  | [] => "景点".data
  | p :: _ => p

/-- The planning brief `plan_trip` submits to the agent, built from the
three gathered (stringified) mapping responses. -/
def plan_query (env : ToolEnv) (aenv : AgentEnv) (req : TripRequest) : List Char :=
  build_planner_query req
    (aenv.pyStr (AmapService.search_poi env (attraction_keyword req) req.city true).1)
    (aenv.pyStr (AmapService.get_weather env req.city).1)
    (aenv.pyStr (AmapService.search_poi env hotel_keyword req.city true).1)

/-- Embeds `MultiAgentTripPlanner.plan_trip`: gather attractions, weather
and hotel candidates, build the brief, invoke the agent once, parse its
final message; any exception inside the `try` is caught and answered with
`_create_fallback_plan(request)` — a call made outside any `try`, so its
own exceptions propagate to the caller. -/
def plan_trip (env : ToolEnv) (aenv : AgentEnv) (req : TripRequest) : Except PyErr TripPlan × List Call :=
  match aenv.initmcp with
  | Except.error _ => (create_fallback_plan req, [])
  | Except.ok _ =>
    let query := plan_query env aenv req
    let tr := [Call.svcSearchPoi (attraction_keyword req) req.city, Call.svcGetWeather req.city,
      Call.svcSearchPoi hotel_keyword req.city, Call.agent query]
    match aenv.agentInvoke query with
    | Except.error _ => (create_fallback_plan req, tr)
    | Except.ok msgs =>
      match msgs.getLast? with
      | none => (create_fallback_plan req, tr)
      | some lastMsg => (parse_response env.loads aenv.tripPlanOf lastMsg req, tr)

/-! ## Specification-side description of the extraction step

These definitions follow the spec's words for the response-extraction
precedence (fenced-JSON-block, then any fenced block, then brace span,
then failure) and are deliberately written with different primitives than
the embedded code, so that claim C2 relates two independent formulations. -/

/-- Suffix immediately after the first occurrence of `marker`. -/
def subAfterFirst (marker : List Char) : List Char → Option (List Char)
  | [] => none
  | c :: tl =>
    if marker.isPrefixOf (c :: tl) then some ((c :: tl).drop marker.length)
    else subAfterFirst marker tl

/-- Strict prefix before the first occurrence of `marker`. -/
def beforeFirst (marker : List Char) : List Char → Option (List Char)
  | [] => none
  | c :: tl =>
    if marker.isPrefixOf (c :: tl) then some []
    else (beforeFirst marker tl).map (fun xs => c :: xs)

/-- Follows the spec's words: the contents of the first fenced block
introduced by `marker`, i.e. what stands between the marker and the next
closing fence, stripped of surrounding whitespace. -/
def specFencedBlock (marker r : List Char) : Option (List Char) :=
  (subAfterFirst marker r).bind (fun rest => (beforeFirst fence3 rest).map pyStrip)

/-- Index of the first occurrence of a character. -/
def firstIdxOf (c : Char) (r : List Char) : Nat :=
  (r.takeWhile (· != c)).length

/-- Index of the last occurrence of a character. -/
def lastIdxOf (c : Char) (r : List Char) : Nat :=
  r.length - 1 - firstIdxOf c r.reverse

/-- Follows the spec's words: the substring from the first opening brace
to the last closing brace, when both occur. -/
def specBraceSpan (r : List Char) : Option (List Char) :=
  if lbrace ∈ r ∧ rbrace ∈ r then
    some ((r.take (lastIdxOf rbrace r + 1)).drop (firstIdxOf lbrace r))
  else none

/-! ## Concrete environments and inputs used by witnesses and counterexamples -/

/-- A remote environment with nothing available: no tools discovered and
every remote interaction failing. -/
def envTrivial : ToolEnv :=
  { tools := []
    arun := fun _ _ => Except.error (PyErr.external ("connection refused".data))
    loads := fun _ => Except.error (PyErr.external ("invalid json".data)) }

/-- An agent environment whose initialization succeeds and whose agent
invocation fails. -/
def aenvTrivial : AgentEnv :=
  { initmcp := Except.ok ()
    agentInvoke := fun _ => Except.error (PyErr.external ("model unavailable".data))
    pyStr := fun _ => []
    tripPlanOf := fun _ => Except.error PyErr.typeError }

/-- A concrete three-day Beijing request with a well-formed start date. -/
def reqW : TripRequest :=
  { city := "北京".data
    start_date := "2024-05-01".data
    end_date := "2024-05-03".data
    travel_days := 3
    transportation := "地铁".data
    accommodation := "经济型".data
    preferences := []
    free_text_input := none }

/-- The same request with a start date that `strptime` rejects. -/
def reqBadDate : TripRequest :=
  { reqW with start_date := "not-a-date".data }

/-- An environment whose weather tool is present and answers with a
payload that decodes to an object carrying no `forecasts` field. -/
def envForecastless : ToolEnv :=
  { tools := [sWeatherTool]
    arun := fun _ _ => Except.ok ("\x7b\x7d".data)
    loads := fun _ => Except.ok (Json.obj []) }

/-- A geocoding payload with exactly one candidate, located at
longitude 116.4 and latitude 39.9. -/
def geoPayload : Json :=
  Json.obj [(sResults, Json.arr [Json.obj [(sLocationKey, Json.str ("116.4,39.9".data))]])]

/-- An environment where geocoding and all three routing tools are
available and geocoding always yields the candidate of `geoPayload`. -/
def envGeoOk : ToolEnv :=
  { tools := [sGeoTool, sWalkTool, sDriveTool, sTransitTool]
    arun := fun _ _ => Except.ok ("payload".data)
    loads := fun _ => Except.ok geoPayload }

/-- The location parsed from the single candidate of `geoPayload`. -/
def locGeoOk : Location :=
  match parseDec ("116.4".data), parseDec ("39.9".data) with
  | some lon, some lat => { longitude := lon, latitude := lat }
  | _, _ => { longitude := 0, latitude := 0 }

/-- The `maps_geo` invocation recorded when geocoding 天安门 in 北京. -/
def geoTraceW : List Call :=
  [Call.tool sGeoTool (Json.obj [(sAddress, Json.str ("天安门".data)), (sCity, Json.str ("北京".data))])]

/-- A concrete raw agent reply holding both a fenced JSON block and bare
braces outside the fence. -/
def respW : List Char :=
  "好的 ```json\n \x7b\"city\": \"北京\"\x7d \n``` 此外 \x7bother\x7d".data

/-- The fenced block contents of `respW`. -/
def respBlockW : List Char :=
  "\x7b\"city\": \"北京\"\x7d".data

/-! ## Claim C9 -/

/-- C9: each singleton accessor (`get_llm`, `get_llm_DouBao`,
`get_amap_service`, `get_trip_planner_agent`) is idempotent — a second
call returns the identical cached instance (same allocation identity) and
leaves the module state unchanged, reconstructing nothing. -/
theorem singleton_accessors_idempotent :
    ∀ s : GState,
      get_llm (get_llm s).2 = get_llm s ∧
      get_llm_DouBao (get_llm_DouBao s).2 = get_llm_DouBao s ∧
      get_amap_service (get_amap_service s).2 = get_amap_service s ∧
      get_trip_planner_agent (get_trip_planner_agent s).2 = get_trip_planner_agent s := by
  intro s
  refine ⟨?_, ?_, ?_, ?_⟩
  · cases h : s.llm <;> simp [get_llm, h]
  · cases h : s.llm_doubao <;> simp [get_llm_DouBao, h]
  · cases h : s.amap <;> simp [get_amap_service, h]
  · cases h : s.planner <;> simp [get_trip_planner_agent, h]

/-! ## Claim C5 -/

/-- C5 counterexample: with the weather tool present and a decoded payload
that is an object without a `forecasts` field, `get_weather` returns the
Python `None` carried out of `dict.get` — not an empty sequence, so the
claim as stated is false at this input. -/
theorem get_weather_missing_forecasts_is_none :
    (AmapService.get_weather envForecastless ("北京".data)).1 = Json.null ∧
    Json.null ≠ Json.arr [] :=
  ⟨rfl, fun h => Json.noConfusion h⟩

/-- C5 amended: `get_weather` returns an empty sequence when the
`maps_weather` tool is absent, when the remote call throws, and when
decoding the payload throws; when the decoded payload is an object merely
lacking a `forecasts` field it instead returns Python `None`. -/
theorem get_weather_degradation (env : ToolEnv) (city : List Char) :
    (sWeatherTool ∉ env.tools → AmapService.get_weather env city = (Json.arr [], [])) ∧
    (∀ e, sWeatherTool ∈ env.tools →
      env.arun sWeatherTool (Json.obj [(sCity, Json.str city)]) = Except.error e →
      (AmapService.get_weather env city).1 = Json.arr []) ∧
    (∀ text e, sWeatherTool ∈ env.tools →
      env.arun sWeatherTool (Json.obj [(sCity, Json.str city)]) = Except.ok text →
      env.loads text = Except.error e →
      (AmapService.get_weather env city).1 = Json.arr []) ∧
    (∀ text kvs, sWeatherTool ∈ env.tools →
      env.arun sWeatherTool (Json.obj [(sCity, Json.str city)]) = Except.ok text →
      env.loads text = Except.ok (Json.obj kvs) →
      kvs.lookup sForecasts = none →
      (AmapService.get_weather env city).1 = Json.null) := by
  refine ⟨?_, ?_, ?_, ?_⟩
  · intro h
    simp only [AmapService.get_weather]
    rw [if_neg h]
  · intro e hmem harun
    simp only [AmapService.get_weather, if_pos hmem, harun]
  · intro text e hmem harun hloads
    simp only [AmapService.get_weather, if_pos hmem, harun, hloads]
  · intro text kvs hmem harun hloads hlook
    simp only [AmapService.get_weather, if_pos hmem, harun, hloads, pyGet, hlook]

/-- C5 witness: the missing-forecasts case of the amended statement holds
at the concrete environment `envForecastless`. -/
theorem get_weather_degradation_witness :
    (AmapService.get_weather envForecastless ("北京".data)).1 = Json.null :=
  (get_weather_degradation envForecastless ("北京".data)).2.2.2
    ("\x7b\x7d".data) [] (by decide) rfl rfl rfl

/-! ## Claim C6 -/

/-- C6: once `init_mcp_tools` succeeds, `plan_trip` performs exactly three
mapping-service calls — attraction search, weather, then a hotel search
whose keyword is the literal characters of the unresolved template
placeholder (an opening brace, `request.accommodation`, a closing brace,
then 酒店), scoped to the request's city — before the single agent call. -/
theorem plan_trip_hotel_search_literal (env : ToolEnv) (aenv : AgentEnv) (req : TripRequest)
    (h : aenv.initmcp = Except.ok ()) :
    (plan_trip env aenv req).2 =
      [Call.svcSearchPoi (attraction_keyword req) req.city, Call.svcGetWeather req.city,
       Call.svcSearchPoi hotel_keyword req.city, Call.agent (plan_query env aenv req)] ∧
    hotel_keyword = lbrace :: ("request.accommodation".data ++ (rbrace :: "酒店".data)) := by
  constructor
  · simp only [plan_trip, h]
    cases hres : aenv.agentInvoke (plan_query env aenv req) with
    | error e => rfl
    | ok msgs =>
      dsimp only
      cases hl : msgs.getLast? <;> rfl
  · rfl

/-- C6 witness: the statement applies to the concrete request `reqW` in
the trivial environments. -/
theorem plan_trip_hotel_search_literal_witness :
    (plan_trip envTrivial aenvTrivial reqW).2 =
      [Call.svcSearchPoi (attraction_keyword reqW) reqW.city, Call.svcGetWeather reqW.city,
       Call.svcSearchPoi hotel_keyword reqW.city, Call.agent (plan_query envTrivial aenvTrivial reqW)] ∧
    hotel_keyword = lbrace :: ("request.accommodation".data ++ (rbrace :: "酒店".data)) :=
  plan_trip_hotel_search_literal envTrivial aenvTrivial reqW rfl

/-! ## Claim C10 -/

/-- C10: when the request's start date is malformed, `plan_trip` can raise
to its caller — here the agent invocation fails, the exception handler
calls `_create_fallback_plan` outside any `try`, and its `strptime` call
raises `ValueError` out of `plan_trip`; so the no-raise guarantee indeed
needs the well-formed-start-date precondition. -/
theorem plan_trip_bad_date_raises :
    parseDate reqBadDate.start_date = none ∧
    (plan_trip envTrivial aenvTrivial reqBadDate).1 =
      Except.error (PyErr.valueError ("time data does not match format".data)) :=
  ⟨rfl, rfl⟩

/-! ## Claim C3 -/

/-- C3: for a request with `travel_days = N` and start date 2024-05-01,
the fallback plan has exactly `N` days; day `i` carries `day_index = i`
and the date `i` calendar days after 2024-05-01 (`dateAdd` advancing by
exactly one calendar day per step). -/
theorem fallback_days_structure (req : TripRequest) (N : Nat)
    (_hN : 1 ≤ N) (hdays : req.travel_days = N)
    (hstart : req.start_date = "2024-05-01".data) :
    ∃ p, create_fallback_plan req = Except.ok p ∧
      p.days.length = N ∧
      (∀ i, i < N → ∃ hi : i < p.days.length,
        (p.days.get ⟨i, hi⟩).day_index = i ∧
        (p.days.get ⟨i, hi⟩).date = formatDate (dateAdd ⟨2024, 5, 1⟩ i)) ∧
      (∀ i, dateAdd ⟨2024, 5, 1⟩ (i + 1) = nextDay (dateAdd ⟨2024, 5, 1⟩ i)) := by
  have hp : parseDate req.start_date = some ⟨2024, 5, 1⟩ := by rw [hstart]; exact rfl
  cases hE : create_fallback_plan req with
  | error e =>
    rw [create_fallback_plan, hp] at hE
    exact Except.noConfusion hE
  | ok p =>
    have hrec := hE
    rw [create_fallback_plan, hp] at hrec
    injection hrec with h
    subst h
    refine ⟨_, rfl, ?_, ?_, ?_⟩
    · simp [hdays]
    · intro i hi
      refine ⟨by simpa [hdays] using hi, ?_, ?_⟩ <;>
        simp [List.get_eq_getElem, fallbackDay]
    · intro i
      rw [dateAdd, dateAdd, Function.iterate_succ_apply']

/-- C3 witness: the statement holds at the concrete request `reqW`. -/
theorem fallback_days_structure_witness :
    ∃ p, create_fallback_plan reqW = Except.ok p ∧
      p.days.length = 3 ∧
      (∀ i, i < 3 → ∃ hi : i < p.days.length,
        (p.days.get ⟨i, hi⟩).day_index = i ∧
        (p.days.get ⟨i, hi⟩).date = formatDate (dateAdd ⟨2024, 5, 1⟩ i)) ∧
      (∀ i, dateAdd ⟨2024, 5, 1⟩ (i + 1) = nextDay (dateAdd ⟨2024, 5, 1⟩ i)) :=
  fallback_days_structure reqW 3 (by decide) rfl rfl

/-! ## Claim C4 -/

/-! ## Claim C4 -/

set_option maxRecDepth 40000 in
/-- C4 counterexample: in the fallback plan for 北京, the day with
`day_index = 1` stores as its first longitude the binary64 result of
`116.4 + 0.01`, the double written `116.41000000000001`; Python compares
it unequal to the literal `116.41`, and its exact rational value is not
`116.41` either — so the claimed longitude is false of the program. -/
theorem fallback_day_one_longitude_counterexample :
    (∃ p, create_fallback_plan reqW = Except.ok p ∧ ∃ dp ∈ p.days, dp.day_index = 1 ∧
      dp.attractions.map (fun a => a.location.longitude) =
        [f64ToRat (pyLong 1 0), f64ToRat (pyLong 1 1)]) ∧
    pyLong 1 0 ≠ pyFloat 11641 2 ∧
    f64ToRat (pyLong 1 0) ≠ (116.41 : ℚ) := by
  refine ⟨?_, by decide, ?_⟩
  · cases hE : create_fallback_plan reqW with
    | error e =>
      rw [create_fallback_plan,
        show parseDate reqW.start_date = some ⟨2024, 5, 1⟩ from rfl] at hE
      exact Except.noConfusion hE
    | ok p =>
      have hrec := hE
      rw [create_fallback_plan,
        show parseDate reqW.start_date = some ⟨2024, 5, 1⟩ from rfl] at hrec
      injection hrec with h
      subst h
      refine ⟨_, rfl, fallbackDay reqW ⟨2024, 5, 1⟩ 1, ?_, rfl, rfl⟩
      simp only [List.mem_map]
      exact ⟨1, by decide, rfl⟩
  · have hv : pyLong 1 0 = ⟨8191625509721867, -46⟩ := by decide
    rw [hv]
    show (8191625509721867 : ℚ) * (2 : ℚ) ^ (-46 : ℤ) ≠ (116.41 : ℚ)
    intro hcon
    have h2 : (8191625509721867 : ℚ) * 2 ^ (-46 : ℤ) * 2 ^ (46 : ℤ) =
        116.41 * 2 ^ (46 : ℤ) := by rw [hcon]
    rw [mul_assoc, ← zpow_add₀ (by norm_num : (2 : ℚ) ≠ 0)] at h2
    norm_num at h2

set_option maxRecDepth 40000 in
/-- C4 amended: in the fallback plan for 北京 the day with `day_index = 1`
contains exactly the two attractions 北京景点1 and 北京景点2, each with
visit duration 120, whose coordinates are the binary64 results of
`116.4 + 0.01 + j*0.005` and `39.9 + 0.01 + j*0.005`: the first longitude
is the double `116.41000000000001` — one ulp above, and not equal to,
`116.41` — while the second longitude and both latitudes equal the
doubles `116.415`, `39.91` and `39.915` as the claim states. -/
theorem fallback_day_one_attractions_float (req : TripRequest)
    (hc : req.city = "北京".data) (hN : 2 ≤ req.travel_days)
    (d0 : Date) (hd : parseDate req.start_date = some d0) :
    (∃ p, create_fallback_plan req = Except.ok p ∧
      (∃ dp ∈ p.days, dp.day_index = 1) ∧
      ∀ dp ∈ p.days, dp.day_index = 1 →
        dp.attractions.map
            (fun a => (a.name, a.location.longitude, a.location.latitude, a.visit_duration)) =
          [(("北京景点1".data : List Char), f64ToRat (pyLong 1 0), f64ToRat (pyLat 1 0), (120 : Nat)),
           ("北京景点2".data, f64ToRat (pyLong 1 1), f64ToRat (pyLat 1 1), 120)]) ∧
    pyLong 1 0 = pyFloat 11641000000000001 14 ∧
    pyLong 1 0 ≠ pyFloat 11641 2 ∧
    pyLong 1 1 = pyFloat 116415 3 ∧
    pyLat 1 0 = pyFloat 3991 2 ∧
    pyLat 1 1 = pyFloat 39915 3 := by
  refine ⟨?_, by decide, by decide, by decide, by decide, by decide⟩
  cases hE : create_fallback_plan req with
  | error e =>
    rw [create_fallback_plan, hd] at hE
    exact Except.noConfusion hE
  | ok p =>
    have hrec := hE
    rw [create_fallback_plan, hd] at hrec
    injection hrec with h
    subst h
    refine ⟨_, rfl, ?_, ?_⟩
    · refine ⟨fallbackDay req d0 1, ?_, rfl⟩
      simp only [List.mem_map]
      exact ⟨1, by simp only [List.mem_range]; omega, rfl⟩
    · intro dp hdp hidx
      obtain ⟨i, hiR, rfl⟩ := List.mem_map.mp hdp
      have hi1 : i = 1 := hidx
      subst hi1
      simp only [fallbackDay, fallbackAttraction, hc,
        show List.range 2 = [0, 1] from rfl, List.map_cons, List.map_nil,
        List.cons.injEq, Prod.mk.injEq]
      decide

set_option maxRecDepth 40000 in
/-- C4 witness: the amended statement holds at the concrete request `reqW`. -/
theorem fallback_day_one_attractions_float_witness :
    (∃ p, create_fallback_plan reqW = Except.ok p ∧
      (∃ dp ∈ p.days, dp.day_index = 1) ∧
      ∀ dp ∈ p.days, dp.day_index = 1 →
        dp.attractions.map
            (fun a => (a.name, a.location.longitude, a.location.latitude, a.visit_duration)) =
          [(("北京景点1".data : List Char), f64ToRat (pyLong 1 0), f64ToRat (pyLat 1 0), (120 : Nat)),
           ("北京景点2".data, f64ToRat (pyLong 1 1), f64ToRat (pyLat 1 1), 120)]) ∧
    pyLong 1 0 = pyFloat 11641000000000001 14 ∧
    pyLong 1 0 ≠ pyFloat 11641 2 ∧
    pyLong 1 1 = pyFloat 116415 3 ∧
    pyLat 1 0 = pyFloat 3991 2 ∧
    pyLat 1 1 = pyFloat 39915 3 :=
  fallback_day_one_attractions_float reqW rfl (by decide) ⟨2024, 5, 1⟩ rfl

/-! ## Claim C1 -/

/-- C1: for any request whose start date is a well-formed date string,
`plan_trip` never raises — whatever the remote tools, the JSON decoder,
the agent and the validation do, the result is an `Except.ok` plan
(either the parsed agent plan or the fallback plan). -/
theorem plan_trip_never_raises (env : ToolEnv) (aenv : AgentEnv) (req : TripRequest)
    (d0 : Date) (hd : parseDate req.start_date = some d0) :
    ∃ p, (plan_trip env aenv req).1 = Except.ok p := by
  have hfb : ∃ q, create_fallback_plan req = Except.ok q := by
    rw [create_fallback_plan, hd]
    exact ⟨_, rfl⟩
  obtain ⟨q, hq⟩ := hfb
  have hpr : ∀ resp, ∃ p, parse_response env.loads aenv.tripPlanOf resp req = Except.ok p := by
    intro resp
    rw [parse_response]
    cases extract_json resp with
    | error e => exact ⟨q, hq⟩
    | ok js =>
      dsimp only
      cases env.loads js with
      | error e => exact ⟨q, hq⟩
      | ok data =>
        dsimp only
        cases aenv.tripPlanOf data with
        | error e => exact ⟨q, hq⟩
        | ok plan => exact ⟨plan, rfl⟩
  rw [plan_trip]
  cases aenv.initmcp with
  | error e => exact ⟨q, hq⟩
  | ok u =>
    dsimp only
    cases aenv.agentInvoke (plan_query env aenv req) with
    | error e => exact ⟨q, hq⟩
    | ok msgs =>
      dsimp only
      cases msgs.getLast? with
      | none => exact ⟨q, hq⟩
      | some lastMsg => exact hpr lastMsg

/-- C1 witness: the concrete request `reqW` in the trivial environments
yields an `Except.ok` plan. -/
theorem plan_trip_never_raises_witness :
    ∃ p, (plan_trip envTrivial aenvTrivial reqW).1 = Except.ok p :=
  plan_trip_never_raises envTrivial aenvTrivial reqW ⟨2024, 5, 1⟩ rfl

/-! ## Claim C7 -/

/-- Trace of the routing-tool invocation once both endpoints are resolved:
exactly one call of the selected tool with the built argument dict. -/
theorem routeToolCall_trace (env : ToolEnv) (o d oc dc rt : List Char)
    (h : AmapService.tool_map_get rt ∈ env.tools) :
    (AmapService.routeToolCall env o d oc dc rt).2 =
      [Call.tool (AmapService.tool_map_get rt) (Json.obj
        ([(sOrigin, Json.str o), (sDestination, Json.str d)] ++
          (if rt = sTransit then [(sCity1, Json.str oc), (sCity2, Json.str dc)] else [])))] := by
  simp only [AmapService.routeToolCall]
  rw [if_pos h]
  repeat' split
  all_goals rfl

/-- C7: with both endpoints resolvable, `plan_route` dispatches on the
route type — `transit` invokes the integrated-transit tool with `city1`
and `city2` in its arguments, `driving` invokes the driving tool with no
city arguments, and an unrecognized type such as `teleport` invokes the
walking tool. -/
theorem plan_route_dispatch (env : ToolEnv) (oa oc da dc : List Char)
    (l : Location) (ls : List Location) (t1 : List Call)
    (m : Location) (ms : List Location) (t2 : List Call)
    (h1 : AmapService.geocode env oa (some oc) = (some (l :: ls), t1))
    (h2 : AmapService.geocode env da (some dc) = (some (m :: ms), t2))
    (htr : sTransitTool ∈ env.tools) (hdr : sDriveTool ∈ env.tools)
    (hwk : sWalkTool ∈ env.tools) :
    (AmapService.plan_route env oa oc da dc sTransit).2 =
      t1 ++ t2 ++ [Call.tool sTransitTool (Json.obj
        [(sOrigin, Json.str (locStr l)), (sDestination, Json.str (locStr m)),
         (sCity1, Json.str oc), (sCity2, Json.str dc)])] ∧
    (AmapService.plan_route env oa oc da dc sDriving).2 =
      t1 ++ t2 ++ [Call.tool sDriveTool (Json.obj
        [(sOrigin, Json.str (locStr l)), (sDestination, Json.str (locStr m))])] ∧
    (AmapService.plan_route env oa oc da dc ("teleport".data)).2 =
      t1 ++ t2 ++ [Call.tool sWalkTool (Json.obj
        [(sOrigin, Json.str (locStr l)), (sDestination, Json.str (locStr m))])] := by
  refine ⟨?_, ?_, ?_⟩
  · simp only [AmapService.plan_route, h1, h2]
    rw [routeToolCall_trace env (locStr l) (locStr m) oc dc sTransit htr]
    rfl
  · simp only [AmapService.plan_route, h1, h2]
    rw [routeToolCall_trace env (locStr l) (locStr m) oc dc sDriving hdr]
    rfl
  · simp only [AmapService.plan_route, h1, h2]
    rw [routeToolCall_trace env (locStr l) (locStr m) oc dc ("teleport".data) hwk]
    rfl

/-- C7 witness: the dispatch statement holds in the concrete environment
`envGeoOk`, where geocoding resolves both endpoints. -/
theorem plan_route_dispatch_witness :
    (AmapService.plan_route envGeoOk ("天安门".data) ("北京".data) ("天安门".data) ("北京".data) sTransit).2 =
      geoTraceW ++ geoTraceW ++ [Call.tool sTransitTool (Json.obj
        [(sOrigin, Json.str (locStr locGeoOk)), (sDestination, Json.str (locStr locGeoOk)),
         (sCity1, Json.str ("北京".data)), (sCity2, Json.str ("北京".data))])] ∧
    (AmapService.plan_route envGeoOk ("天安门".data) ("北京".data) ("天安门".data) ("北京".data) sDriving).2 =
      geoTraceW ++ geoTraceW ++ [Call.tool sDriveTool (Json.obj
        [(sOrigin, Json.str (locStr locGeoOk)), (sDestination, Json.str (locStr locGeoOk))])] ∧
    (AmapService.plan_route envGeoOk ("天安门".data) ("北京".data) ("天安门".data) ("北京".data) ("teleport".data)).2 =
      geoTraceW ++ geoTraceW ++ [Call.tool sWalkTool (Json.obj
        [(sOrigin, Json.str (locStr locGeoOk)), (sDestination, Json.str (locStr locGeoOk))])] :=
  plan_route_dispatch envGeoOk ("天安门".data) ("北京".data) ("天安门".data) ("北京".data)
    locGeoOk [] geoTraceW locGeoOk [] geoTraceW rfl rfl (by decide) (by decide) (by decide)

/-! ## Claim C8 -/

/-- C8 counterexample: when geocoding of the origin fails (here: no tools
in the catalog), the async `plan_route` returns an empty sequence but the
sync `plan_route` raises `TypeError` (the `[0]` subscript on `None`
happens outside any `try`), so the wrappers are not equivalent. -/
theorem sync_plan_route_not_equivalent :
    (AmapService.plan_route envTrivial ("天安门".data) ("北京".data) ("故宫".data) ("北京".data) sWalking).1 =
      Json.arr [] ∧
    (AmapServiceSync.plan_route envTrivial ("天安门".data) ("故宫".data)
        (some ("北京".data)) (some ("北京".data)) sWalking).1 =
      Except.error PyErr.typeError :=
  ⟨rfl, rfl⟩

/-- C8 amended: `get_weather`, `search_poi`, `geocode` and
`get_poi_detail` of the synchronous wrapper are behaviorally equal to the
asynchronous operations; `plan_route` agrees whenever geocoding resolves
both endpoints to at least one candidate, but when geocoding fails the
sync `plan_route` raises (`TypeError`) where the async one returns an
empty sequence. -/
theorem sync_wrapper_equivalence :
    (∀ env city, AmapServiceSync.get_weather env city = AmapService.get_weather env city) ∧
    (∀ env kw city cl, AmapServiceSync.search_poi env kw city cl = AmapService.search_poi env kw city cl) ∧
    (∀ env a c, AmapServiceSync.geocode env a c = AmapService.geocode env a c) ∧
    (∀ env pid, AmapServiceSync.get_poi_detail env pid = AmapService.get_poi_detail env pid) ∧
    (∀ env oa oc da dc rt l ls t1 m ms t2,
      AmapService.geocode env oa (some oc) = (some (l :: ls), t1) →
      AmapService.geocode env da (some dc) = (some (m :: ms), t2) →
      AmapServiceSync.plan_route env oa da (some oc) (some dc) rt =
        (Except.ok (AmapService.plan_route env oa oc da dc rt).1,
         (AmapService.plan_route env oa oc da dc rt).2)) ∧
    (∀ env oa oc da dc rt t1,
      AmapService.geocode env oa (some oc) = (none, t1) →
      (AmapServiceSync.plan_route env oa da (some oc) (some dc) rt).1 = Except.error PyErr.typeError ∧
      (AmapService.plan_route env oa oc da dc rt).1 = Json.arr []) := by
  refine ⟨fun env city => rfl, fun env kw city cl => rfl, fun env a c => rfl,
    fun env pid => rfl, ?_, ?_⟩
  · intro env oa oc da dc rt l ls t1 m ms t2 h1 h2
    have hs1 : AmapServiceSync.geocode env oa (some oc) = (some (l :: ls), t1) := h1
    have hs2 : AmapServiceSync.geocode env da (some dc) = (some (m :: ms), t2) := h2
    simp only [AmapServiceSync.plan_route, hs1, hs2, AmapService.plan_route, h1, h2]
    rfl
  · intro env oa oc da dc rt t1 h1
    have hs1 : AmapServiceSync.geocode env oa (some oc) = (none, t1) := h1
    constructor
    · simp only [AmapServiceSync.plan_route, hs1]
    · simp only [AmapService.plan_route, h1]

/-- C8 witness: the agreement case of the amended statement holds in the
concrete environment `envGeoOk`. -/
theorem sync_wrapper_equivalence_witness :
    AmapServiceSync.plan_route envGeoOk ("天安门".data) ("天安门".data)
        (some ("北京".data)) (some ("北京".data)) sWalking =
      (Except.ok (AmapService.plan_route envGeoOk ("天安门".data) ("北京".data)
          ("天安门".data) ("北京".data) sWalking).1,
       (AmapService.plan_route envGeoOk ("天安门".data) ("北京".data)
          ("天安门".data) ("北京".data) sWalking).2) :=
  sync_wrapper_equivalence.2.2.2.2.1 envGeoOk ("天安门".data) ("北京".data)
    ("天安门".data) ("北京".data) sWalking locGeoOk [] geoTraceW locGeoOk [] geoTraceW rfl rfl

/-! ## Relating the Python string scan to the specification-side description -/

/-- Scanning with a shifted accumulator shifts the found index. -/
theorem pyFindAux_add (m r : List Char) (i : Nat) :
    pyFindAux m r i = (pyFindAux m r 0).map (· + i) := by
  induction r generalizing i with
  | nil =>
    by_cases h : m.isPrefixOf ([] : List Char) = true <;> simp [pyFindAux, h]
  | cons c tl ih =>
    by_cases h : m.isPrefixOf (c :: tl) = true
    · simp [pyFindAux, h]
    · simp only [pyFindAux, h, if_false, Bool.false_eq_true]
      rw [ih (i + 1), ih 1]
      cases pyFindAux m tl 0 <;> simp <;> omega

/-- With a zero start, `pyFind` is the bare scan. -/
theorem pyFind_zero (r m : List Char) : pyFind r m 0 = pyFindAux m r 0 := by
  rw [pyFind, List.drop_zero]
  cases pyFindAux m r 0 <;> simp

/-- The suffix after the first occurrence, expressed through the scan. -/
theorem subAfterFirst_eq (m : List Char) (hm : m ≠ []) (r : List Char) :
    subAfterFirst m r = (pyFindAux m r 0).map (fun k => r.drop (k + m.length)) := by
  induction r with
  | nil =>
    have h : m.isPrefixOf ([] : List Char) = false := by
      cases m with
      | nil => exact absurd rfl hm
      | cons a as => rfl
    simp [subAfterFirst, pyFindAux, h]
  | cons c tl ih =>
    by_cases h : m.isPrefixOf (c :: tl) = true
    · simp [subAfterFirst, pyFindAux, h]
    · simp only [subAfterFirst, pyFindAux, h, if_false, Bool.false_eq_true]
      rw [ih, pyFindAux_add m tl 1]
      cases pyFindAux m tl 0 with
      | none => simp
      | some k =>
        simp only [Option.map_some', Option.map_map]
        rw [show k + 1 + m.length = (k + m.length) + 1 from by omega]
        simp [List.drop_succ_cons]

/-- The prefix before the first occurrence, expressed through the scan. -/
theorem beforeFirst_eq (m : List Char) (hm : m ≠ []) (r : List Char) :
    beforeFirst m r = (pyFindAux m r 0).map (fun k => r.take k) := by
  induction r with
  | nil =>
    have h : m.isPrefixOf ([] : List Char) = false := by
      cases m with
      | nil => exact absurd rfl hm
      | cons a as => rfl
    simp [beforeFirst, pyFindAux, h]
  | cons c tl ih =>
    by_cases h : m.isPrefixOf (c :: tl) = true
    · simp [beforeFirst, pyFindAux, h]
    · simp only [beforeFirst, pyFindAux, h, if_false, Bool.false_eq_true]
      rw [ih, pyFindAux_add m tl 1]
      cases pyFindAux m tl 0 with
      | none => simp
      | some k => simp [List.take_succ_cons]

/-- A failed containment test means a failed scan. -/
theorem contains_false_none (r m : List Char) (h : containsSub r m = false) :
    pyFindAux m r 0 = none := by
  cases h' : pyFindAux m r 0 with
  | none => rfl
  | some k =>
    rw [containsSub, pyFind_zero, h'] at h
    simp at h

/-- Mapping preserves definedness of an optional value. -/
theorem isSome_map {α β : Type} (f : α → β) (o : Option α) :
    (o.map f).isSome = o.isSome := by
  cases o <;> rfl

/-- Transitivity of the boolean prefix test. -/
theorem isPrefixOf_trans {a b c : List Char} (h1 : a.isPrefixOf b = true)
    (h2 : b.isPrefixOf c = true) : a.isPrefixOf c = true := by
  rw [List.isPrefixOf_iff_prefix] at h1 h2 ⊢
  exact h1.trans h2

/-- Unfolding of the boolean prefix test on two cons cells. -/
theorem cons_isPrefixOf_cons (a b : Char) (as bs : List Char) :
    (a :: as).isPrefixOf (b :: bs) = (a == b && as.isPrefixOf bs) := by
  rw [List.isPrefixOf]

/-- Containment of a pattern implies containment of any of its prefixes. -/
theorem contains_mono (r m1 m2 : List Char) (h12 : m2.isPrefixOf m1 = true) :
    containsSub r m1 = true → containsSub r m2 = true := by
  rw [containsSub, containsSub, pyFind_zero, pyFind_zero]
  induction r with
  | nil =>
    intro h
    by_cases h1 : m1.isPrefixOf ([] : List Char) = true
    · have h2 : m2.isPrefixOf ([] : List Char) = true := isPrefixOf_trans h12 h1
      simp [pyFindAux, h2]
    · simp [pyFindAux, h1] at h
  | cons c tl ih =>
    intro h
    by_cases h2 : m2.isPrefixOf (c :: tl) = true
    · simp [pyFindAux, h2]
    · have h1 : ¬m1.isPrefixOf (c :: tl) = true := by
        intro hcon
        exact h2 (isPrefixOf_trans h12 hcon)
      rw [pyFindAux, if_neg h1, pyFindAux_add m1 tl 1, isSome_map] at h
      rw [pyFindAux, if_neg h2, pyFindAux_add m2 tl 1, isSome_map]
      exact ih h

/-- The head-step description of the first-index function. -/
theorem firstIdx_cons (c a : Char) (l : List Char) :
    firstIdxOf c (a :: l) = if a = c then 0 else firstIdxOf c l + 1 := by
  by_cases h : a = c <;> simp [firstIdxOf, List.takeWhile_cons, h]

/-- Containment of a single character matches list membership. -/
theorem contains_single_iff (c : Char) (r : List Char) :
    containsSub r [c] = true ↔ c ∈ r := by
  rw [containsSub, pyFind_zero]
  induction r with
  | nil => simp [pyFindAux, List.isPrefixOf]
  | cons a tl ih =>
    by_cases h : c = a
    · subst h
      have hp : ([c].isPrefixOf (c :: tl)) = true := by
        simp [cons_isPrefixOf_cons]
      simp [pyFindAux, hp]
    · have hp : ¬([c].isPrefixOf (a :: tl)) = true := by
        simp [cons_isPrefixOf_cons, h]
      rw [pyFindAux, if_neg hp, pyFindAux_add [c] tl 1, isSome_map]
      rw [List.mem_cons]
      simp [ih, h]

/-- Where the scan first finds a contained character. -/
theorem first_char_find (c : Char) (r : List Char) (h : c ∈ r) :
    pyFindAux [c] r 0 = some (firstIdxOf c r) := by
  induction r with
  | nil => cases h
  | cons a tl ih =>
    by_cases hc : c = a
    · subst hc
      have hp : ([c].isPrefixOf (c :: tl)) = true := by
        simp [cons_isPrefixOf_cons]
      rw [pyFindAux, if_pos hp, firstIdx_cons]
      simp
    · have hp : ¬([c].isPrefixOf (a :: tl)) = true := by
        simp [cons_isPrefixOf_cons, hc]
      have htl : c ∈ tl := by
        cases List.mem_cons.mp h with
        | inl h' => exact absurd h' hc
        | inr h' => exact h'
      rw [pyFindAux, if_neg hp, pyFindAux_add [c] tl 1, ih htl, firstIdx_cons,
        if_neg (fun he => hc he.symm)]
      rfl

/-- The first index ignores a suffix when the character occurs earlier. -/
theorem firstIdx_append_left (c : Char) (xs ys : List Char) (h : c ∈ xs) :
    firstIdxOf c (xs ++ ys) = firstIdxOf c xs := by
  induction xs with
  | nil => cases h
  | cons a tl ih =>
    by_cases hc : a = c
    · simp [firstIdx_cons, hc]
    · have htl : c ∈ tl := by
        cases List.mem_cons.mp h with
        | inl h' => exact absurd h'.symm hc
        | inr h' => exact h'
      simp [firstIdx_cons, hc, ih htl]

/-- The first index skips a prefix free of the character. -/
theorem firstIdx_append_right (c : Char) (xs ys : List Char) (h : c ∉ xs) :
    firstIdxOf c (xs ++ ys) = xs.length + firstIdxOf c ys := by
  induction xs with
  | nil => simp
  | cons a tl ih =>
    have ha : ¬a = c := fun he => h (he ▸ List.mem_cons_self a tl)
    have htl : c ∉ tl := fun hm => h (List.mem_cons_of_mem a hm)
    simp [firstIdx_cons, ha, ih htl]
    omega

/-- A contained character's first index is a real position. -/
theorem firstIdx_lt (c : Char) (r : List Char) (h : c ∈ r) :
    firstIdxOf c r < r.length := by
  induction r with
  | nil => cases h
  | cons a tl ih =>
    by_cases hc : a = c
    · simp [firstIdx_cons, hc]
    · have htl : c ∈ tl := by
        cases List.mem_cons.mp h with
        | inl h' => exact absurd h'.symm hc
        | inr h' => exact h'
      simp [firstIdx_cons, hc]
      exact ih htl

/-- The backwards scan fails on a character-free string. -/
theorem rfind_none (c : Char) (r : List Char) (h : c ∉ r) :
    pyRfind [c] r = none := by
  induction r with
  | nil => rfl
  | cons a tl ih =>
    have htl : c ∉ tl := fun hm => h (List.mem_cons_of_mem a hm)
    have ha : ¬c = a := fun he => h (he ▸ List.mem_cons_self a tl)
    rw [pyRfind, ih htl]
    simp [cons_isPrefixOf_cons, ha]

/-- Where the backwards scan finds the last occurrence of a character. -/
theorem last_char_rfind (c : Char) (r : List Char) (h : c ∈ r) :
    pyRfind [c] r = some (lastIdxOf c r) := by
  induction r with
  | nil => cases h
  | cons a tl ih =>
    by_cases ht : c ∈ tl
    · rw [pyRfind, ih ht]
      have hF : firstIdxOf c (a :: tl).reverse = firstIdxOf c tl.reverse := by
        rw [List.reverse_cons]
        exact firstIdx_append_left c tl.reverse [a] (List.mem_reverse.mpr ht)
      have hlt : firstIdxOf c tl.reverse < tl.length := by
        have := firstIdx_lt c tl.reverse (List.mem_reverse.mpr ht)
        simpa using this
      simp only [lastIdxOf, hF, List.length_cons, List.length_reverse, Option.some.injEq]
      omega
    · have ha : c = a := by
        cases List.mem_cons.mp h with
        | inl h' => exact h'
        | inr h' => exact absurd h' ht
      subst ha
      rw [pyRfind, rfind_none c tl ht,
        if_pos (by simp [cons_isPrefixOf_cons] : ([c].isPrefixOf (c :: tl)) = true)]
      have hF : firstIdxOf c (c :: tl).reverse = tl.length := by
        rw [List.reverse_cons,
          firstIdx_append_right c tl.reverse [c] (fun hm => ht (List.mem_reverse.mp hm))]
        simp [firstIdx_cons]
      simp only [lastIdxOf, hF, List.length_cons, Option.some.injEq]
      omega

/-- Slicing with a natural end index is take-then-drop. -/
theorem pySlice_natCast (r : List Char) (a b : Nat) :
    pySlice r a ((b : Nat) : Int) = (r.take b).drop a := by
  rw [pySlice, if_neg (by omega : ¬((b : Nat) : Int) < 0)]
  have hb : ((b : Nat) : Int).toNat = b := by omega
  rw [hb]

/-! ## Claim C2 -/

/-- C2: the response parser's extraction follows the spec's precedence.
If the text holds a fenced JSON block, its contents are extracted even
when bare braces also occur; otherwise a plain fenced block's contents;
otherwise, when braces occur, the substring from the first opening brace
to the last closing brace; otherwise extraction fails with the
`ValueError`(no JSON found), which `_parse_response` catches by answering
with the fallback plan instead of raising. -/
theorem parse_response_extraction (r : List Char) (req : TripRequest)
    (loads : List Char → Except PyErr Json) (tpOf : Json → Except PyErr TripPlan) :
    (∀ b, specFencedBlock jsonFence r = some b → extract_json r = Except.ok b) ∧
    (containsSub r jsonFence = false →
      ∀ b, specFencedBlock fence3 r = some b → extract_json r = Except.ok b) ∧
    (containsSub r fence3 = false →
      ∀ b, specBraceSpan r = some b → extract_json r = Except.ok b) ∧
    (containsSub r fence3 = false → specBraceSpan r = none →
      extract_json r = Except.error (PyErr.valueError noJsonMsg) ∧
      parse_response loads tpOf r req = create_fallback_plan req) := by
  refine ⟨?_, ?_, ?_, ?_⟩
  · intro b hb
    rw [specFencedBlock, subAfterFirst_eq jsonFence (by decide)] at hb
    cases hf : pyFindAux jsonFence r 0 with
    | none => rw [hf] at hb; simp at hb
    | some k =>
      rw [hf] at hb
      simp only [Option.map_some', Option.some_bind] at hb
      rw [beforeFirst_eq fence3 (by decide)] at hb
      cases hbf : pyFindAux fence3 (r.drop (k + jsonFence.length)) 0 with
      | none => rw [hbf] at hb; simp at hb
      | some k2 =>
        rw [hbf] at hb
        simp only [Option.map_some', Option.some.injEq] at hb
        subst hb
        have hfind : pyFind r jsonFence 0 = some k := by rw [pyFind_zero, hf]
        have hbf7 : pyFindAux fence3 (r.drop (k + 7)) 0 = some k2 := hbf
        have hfind2 : pyFind r fence3 (k + 7) = some (k2 + (k + 7)) := by
          rw [pyFind, hbf7]; rfl
        simp only [extract_json, hfind, hfind2]
        rw [pySlice_natCast, List.drop_take]
        rw [show k2 + (k + 7) - (k + 7) = k2 from by omega]
        rfl
  · intro hnj b hb
    have hf1 : pyFindAux jsonFence r 0 = none := contains_false_none r jsonFence hnj
    rw [specFencedBlock, subAfterFirst_eq fence3 (by decide)] at hb
    cases hf : pyFindAux fence3 r 0 with
    | none => rw [hf] at hb; simp at hb
    | some k =>
      rw [hf] at hb
      simp only [Option.map_some', Option.some_bind] at hb
      rw [beforeFirst_eq fence3 (by decide)] at hb
      cases hbf : pyFindAux fence3 (r.drop (k + fence3.length)) 0 with
      | none => rw [hbf] at hb; simp at hb
      | some k2 =>
        rw [hbf] at hb
        simp only [Option.map_some', Option.some.injEq] at hb
        subst hb
        have hfindN : pyFind r jsonFence 0 = none := by rw [pyFind_zero, hf1]
        have hfind : pyFind r fence3 0 = some k := by rw [pyFind_zero, hf]
        have hbf3 : pyFindAux fence3 (r.drop (k + 3)) 0 = some k2 := hbf
        have hfind2 : pyFind r fence3 (k + 3) = some (k2 + (k + 3)) := by
          rw [pyFind, hbf3]; rfl
        simp only [extract_json, hfindN, hfind, hfind2]
        rw [pySlice_natCast, List.drop_take]
        rw [show k2 + (k + 3) - (k + 3) = k2 from by omega]
        rfl
  · intro hnf b hb
    have hj : containsSub r jsonFence = false := by
      cases hcj : containsSub r jsonFence with
      | false => rfl
      | true =>
        have hmono := contains_mono r jsonFence fence3 (by decide) hcj
        rw [hmono] at hnf
        exact Bool.noConfusion hnf
    have hn1 : pyFindAux jsonFence r 0 = none := contains_false_none r jsonFence hj
    have hn3 : pyFindAux fence3 r 0 = none := contains_false_none r fence3 hnf
    by_cases hbr : lbrace ∈ r ∧ rbrace ∈ r
    · rw [specBraceSpan, if_pos hbr] at hb
      injection hb with hb
      subst hb
      obtain ⟨hbl, hbro⟩ := hbr
      have hfindN : pyFind r jsonFence 0 = none := by rw [pyFind_zero, hn1]
      have hfindN3 : pyFind r fence3 0 = none := by rw [pyFind_zero, hn3]
      have hcl : containsSub r [lbrace] = true := (contains_single_iff lbrace r).mpr hbl
      have hcr : containsSub r [rbrace] = true := (contains_single_iff rbrace r).mpr hbro
      have hfl : pyFind r [lbrace] 0 = some (firstIdxOf lbrace r) := by
        rw [pyFind_zero]; exact first_char_find lbrace r hbl
      have hrr : pyRfind [rbrace] r = some (lastIdxOf rbrace r) := last_char_rfind rbrace r hbro
      simp only [extract_json, hfindN, hfindN3, hcl, hcr, Bool.and_self, if_true, hfl, hrr,
        Option.getD_some]
      rw [show ((lastIdxOf rbrace r : Nat) : Int) + 1 = ((lastIdxOf rbrace r + 1 : Nat) : Int)
        from by push_cast; ring]
      rw [pySlice_natCast]
    · rw [specBraceSpan, if_neg hbr] at hb
      exact Option.noConfusion hb
  · intro hnf hb
    have hj : containsSub r jsonFence = false := by
      cases hcj : containsSub r jsonFence with
      | false => rfl
      | true =>
        have hmono := contains_mono r jsonFence fence3 (by decide) hcj
        rw [hmono] at hnf
        exact Bool.noConfusion hnf
    have hn1 : pyFindAux jsonFence r 0 = none := contains_false_none r jsonFence hj
    have hn3 : pyFindAux fence3 r 0 = none := contains_false_none r fence3 hnf
    have hfindN : pyFind r jsonFence 0 = none := by rw [pyFind_zero, hn1]
    have hfindN3 : pyFind r fence3 0 = none := by rw [pyFind_zero, hn3]
    have hbr : ¬(lbrace ∈ r ∧ rbrace ∈ r) := by
      intro hcon
      rw [specBraceSpan, if_pos hcon] at hb
      exact Option.noConfusion hb
    have hcond : (containsSub r [lbrace] && containsSub r [rbrace]) = false := by
      cases h1 : containsSub r [lbrace] with
      | false => rfl
      | true =>
        cases h2 : containsSub r [rbrace] with
        | false => rfl
        | true =>
          exact absurd ⟨(contains_single_iff lbrace r).mp h1,
            (contains_single_iff rbrace r).mp h2⟩ hbr
    have hx : extract_json r = Except.error (PyErr.valueError noJsonMsg) := by
      simp only [extract_json, hfindN, hfindN3, hcond, Bool.false_eq_true, if_false]
    refine ⟨hx, ?_⟩
    simp only [parse_response, hx]

/-- C2 witness: on the concrete reply `respW`, which holds both a fenced
JSON block and bare braces outside the fence, extraction takes the fenced
block's contents. -/
theorem parse_response_extraction_witness :
    extract_json respW = Except.ok respBlockW :=
  (parse_response_extraction respW reqW (fun _ => Except.error (PyErr.external ("x".data)))
    (fun _ => Except.error PyErr.typeError)).1 respBlockW rfl
